import Mathlib

/-!
Verification of the xcom485i Modbus RTU client (Python package `xcom485i`)
against its natural-language specification.

The development is a shallow embedding of `xcom485i/client.py` and
`xcom485i/addresses.py`:

* A 32-bit IEEE-754 float is represented by its 32-bit pattern (a `Nat`
  below `2 ^ 32`).  `pack('>f', v)` produces exactly the four big-endian
  bytes of that pattern and `unpack('>HH', ba)` splits them into the high
  and low 16-bit words, so the register codec is pure arithmetic on the
  pattern; "bit-for-bit" statements become `Nat` equalities.
* Python `datetime` values become a `DateTime` structure; the constructor's
  range validation becomes an `Option`-returning smart constructor.
* The Modbus exchange (`rtu.send_message`) is an external effect; each
  client operation is embedded as a pure function of the exchange outcome
  (the decoded register reply, or one of the exception classes the
  `try/except` blocks catch).  Python's implicit `return None` on the
  logged error paths and exceptions that escape to the caller are kept
  apart in a `PyResult` type.
-/

namespace Xcom485i

/-! ## Register codec for 32-bit floats

`write_parameter` encodes with `pack('>f', value)` followed by
`unpack('>HH', ba)`; `read_parameter` / `read_info` decode with
`pack('>HH', response[0], response[1])` followed by `unpack('>f', ba)`.
On the 32-bit pattern these are exactly a split into (high word, low word)
and the corresponding recombination. -/

/-- High/low 16-bit register pair of a binary32 bit pattern, as produced by
`pack('>f', value)` then `unpack('>HH', ba)` in `write_parameter`. -/
def encode_float32 (v : Nat) : Nat × Nat :=
  (v / 65536, v % 65536)

/-- Bit pattern rebuilt from two big-endian 16-bit registers, as produced by
`pack('>HH', response[0], response[1])` then `unpack('>f', ba)` in
`read_parameter` and `read_info`. -/
def decode_float32 (hi lo : Nat) : Nat :=
  hi * 65536 + lo

/-! ## Address space (`addresses.py`) -/

/-- All device identifiers and window constants of `Addresses`
(`xcom485i/addresses.py`). -/
structure Addresses where
  dip_switches_offset : Nat
  gateway_device_id : Nat
  system_device_id : Nat
  xt_l1_group_device_id : Nat
  xt_l2_group_device_id : Nat
  xt_l3_group_device_id : Nat
  xt_group_device_id : Nat
  xt_1_device_id : Nat
  xt_2_device_id : Nat
  xt_3_device_id : Nat
  xt_4_device_id : Nat
  xt_5_device_id : Nat
  xt_6_device_id : Nat
  xt_7_device_id : Nat
  xt_8_device_id : Nat
  xt_9_device_id : Nat
  vt_group_device_id : Nat
  vt_1_device_id : Nat
  vt_2_device_id : Nat
  vt_3_device_id : Nat
  vt_4_device_id : Nat
  vt_5_device_id : Nat
  vt_6_device_id : Nat
  vt_7_device_id : Nat
  vt_8_device_id : Nat
  vt_9_device_id : Nat
  vt_10_device_id : Nat
  vt_11_device_id : Nat
  vt_12_device_id : Nat
  vt_13_device_id : Nat
  vt_14_device_id : Nat
  vt_15_device_id : Nat
  vs_group_device_id : Nat
  vs_1_device_id : Nat
  vs_2_device_id : Nat
  vs_3_device_id : Nat
  vs_4_device_id : Nat
  vs_5_device_id : Nat
  vs_6_device_id : Nat
  vs_7_device_id : Nat
  vs_8_device_id : Nat
  vs_9_device_id : Nat
  vs_10_device_id : Nat
  vs_11_device_id : Nat
  vs_12_device_id : Nat
  vs_13_device_id : Nat
  vs_14_device_id : Nat
  vs_15_device_id : Nat
  bsp_group_device_id : Nat
  bsp_device_id : Nat
  read_param_flash_offset : Nat
  read_param_min_offset : Nat
  read_param_max_offset : Nat
  write_param_flash_ram : Nat
  write_param_ram_only : Nat
deriving DecidableEq, Repr

/-- `Addresses.__init__`: every id computed from the dip-switch offset,
mirroring the assignment chain of the source (each id is built from the
previously assigned group id, as in the Python constructor). -/
def mkAddresses (offset : Nat) : Addresses :=
  let dip_switches_offset := offset
  let gateway_device_id := dip_switches_offset + 1
  let system_device_id := dip_switches_offset + 2
  let xt_l1_group_device_id := dip_switches_offset + 7
  let xt_l2_group_device_id := dip_switches_offset + 8
  let xt_l3_group_device_id := dip_switches_offset + 9
  let xt_group_device_id := dip_switches_offset + 10
  let vt_group_device_id := dip_switches_offset + 20
  let vs_group_device_id := dip_switches_offset + 40
  let bsp_group_device_id := dip_switches_offset + 60
  { dip_switches_offset := dip_switches_offset
    gateway_device_id := gateway_device_id
    system_device_id := system_device_id
    xt_l1_group_device_id := xt_l1_group_device_id
    xt_l2_group_device_id := xt_l2_group_device_id
    xt_l3_group_device_id := xt_l3_group_device_id
    xt_group_device_id := xt_group_device_id
    xt_1_device_id := xt_group_device_id + 1
    xt_2_device_id := xt_group_device_id + 2
    xt_3_device_id := xt_group_device_id + 3
    xt_4_device_id := xt_group_device_id + 4
    xt_5_device_id := xt_group_device_id + 5
    xt_6_device_id := xt_group_device_id + 6
    xt_7_device_id := xt_group_device_id + 7
    xt_8_device_id := xt_group_device_id + 8
    xt_9_device_id := xt_group_device_id + 9
    vt_group_device_id := vt_group_device_id
    vt_1_device_id := vt_group_device_id + 1
    vt_2_device_id := vt_group_device_id + 2
    vt_3_device_id := vt_group_device_id + 3
    vt_4_device_id := vt_group_device_id + 4
    vt_5_device_id := vt_group_device_id + 5
    vt_6_device_id := vt_group_device_id + 6
    vt_7_device_id := vt_group_device_id + 7
    vt_8_device_id := vt_group_device_id + 8
    vt_9_device_id := vt_group_device_id + 9
    vt_10_device_id := vt_group_device_id + 10
    vt_11_device_id := vt_group_device_id + 11
    vt_12_device_id := vt_group_device_id + 12
    vt_13_device_id := vt_group_device_id + 13
    vt_14_device_id := vt_group_device_id + 14
    vt_15_device_id := vt_group_device_id + 15
    vs_group_device_id := vs_group_device_id
    vs_1_device_id := vs_group_device_id + 1
    vs_2_device_id := vs_group_device_id + 2
    vs_3_device_id := vs_group_device_id + 3
    vs_4_device_id := vs_group_device_id + 4
    vs_5_device_id := vs_group_device_id + 5
    vs_6_device_id := vs_group_device_id + 6
    vs_7_device_id := vs_group_device_id + 7
    vs_8_device_id := vs_group_device_id + 8
    vs_9_device_id := vs_group_device_id + 9
    vs_10_device_id := vs_group_device_id + 10
    vs_11_device_id := vs_group_device_id + 11
    vs_12_device_id := vs_group_device_id + 12
    vs_13_device_id := vs_group_device_id + 13
    vs_14_device_id := vs_group_device_id + 14
    vs_15_device_id := vs_group_device_id + 15
    bsp_group_device_id := bsp_group_device_id
    bsp_device_id := bsp_group_device_id + 1
    read_param_flash_offset := 0
    read_param_min_offset := 2000
    read_param_max_offset := 4000
    write_param_flash_ram := 0
    write_param_ram_only := 6000 }

/-! ## Python `datetime` model

`write_time` calls `value.weekday()` (Monday = 0) and `read_time` calls the
`datetime` constructor, which range-checks its arguments (proleptic
Gregorian calendar, year 1..9999) and raises `ValueError` on an invalid
field.  The weekday is the standard ordinal computation of CPython's
`datetime` module. -/

/-- Gregorian leap-year test (as used by `datetime`). -/
def isLeapYear (y : Nat) : Bool :=
  y % 4 == 0 && (y % 100 != 0 || y % 400 == 0)

/-- Number of days of month `m` (1..12) in year `y`. -/
def daysInMonth (y m : Nat) : Nat :=
  if m = 2 then (if isLeapYear y then 29 else 28)
  else if m = 4 ∨ m = 6 ∨ m = 9 ∨ m = 11 then 30
  else 31

/-- Days in year `y` strictly before month `m`. -/
def daysBeforeMonth (y m : Nat) : Nat :=
  (List.range (m - 1)).foldl (fun acc i => acc + daysInMonth y (i + 1)) 0

/-- Days strictly before January 1 of year `y` in the proleptic Gregorian
calendar (ordinal day 1 is 0001-01-01). -/
def daysBeforeYear (y : Nat) : Nat :=
  365 * (y - 1) + (y - 1) / 4 - (y - 1) / 100 + (y - 1) / 400

/-- `date.toordinal()`. -/
def toordinal (y m d : Nat) : Nat :=
  daysBeforeYear y + daysBeforeMonth y m + d

/-- `date.weekday()`: 0 = Monday .. 6 = Sunday (0001-01-01 is a Monday). -/
def pyWeekday (y m d : Nat) : Nat :=
  (toordinal y m d + 6) % 7

/-- A Python `datetime` value (only the fields this client touches). -/
structure DateTime where
  year : Nat
  month : Nat
  day : Nat
  hour : Nat
  minute : Nat
  second : Nat
  microsecond : Nat
deriving DecidableEq, Repr

/-- The `datetime(year, month, day, hour, minute, second, microsecond)`
constructor: `some` value on in-range arguments, `none` for the
`ValueError` it raises otherwise. -/
def datetimeMk (y mo d h mi s us : Nat) : Option DateTime :=
  if 1 ≤ y ∧ y ≤ 9999 ∧ 1 ≤ mo ∧ mo ≤ 12 ∧ 1 ≤ d ∧ d ≤ daysInMonth y mo
      ∧ h ≤ 23 ∧ mi ≤ 59 ∧ s ≤ 59 ∧ us ≤ 999999 then
    some ⟨y, mo, d, h, mi, s, us⟩
  else
    none

/-! ## Time register codec (`write_time` / `read_time`)

`write_time` builds the eight-register payload
`[int(us/1000), second, minute, hour, weekday(), day, month, year]`
(the source sends `value.year` unchanged).  `read_time` decodes a reply
`response` as
`datetime(response[7], response[6], response[5], response[3], response[2],
response[1], response[0]*1000)` (the source passes `response[7]`
unchanged as the year). -/

/-- The register list `write_time` passes to `rtu.write_multiple_registers`. -/
def write_time_registers (t : DateTime) : List Nat :=
  [t.microsecond / 1000, t.second, t.minute, t.hour,
   pyWeekday t.year t.month t.day, t.day, t.month, t.year]

/-- The decode step of `read_time` on an eight-register reply (`none` is the
`ValueError` the `datetime` constructor raises on out-of-range fields). -/
def read_time_decode (rs : List Nat) : Option DateTime :=
  datetimeMk (rs.getD 7 0) (rs.getD 6 0) (rs.getD 5 0) (rs.getD 3 0)
    (rs.getD 2 0) (rs.getD 1 0) (rs.getD 0 0 * 1000)

/-! ## Modbus requests

Shallow embedding of the `umodbus.client.serial.rtu` request builders used
by the client: each carries the Modbus function code, the slave id, the
starting address and the quantity (for a write, the quantity is the length
of the value list, per the Modbus write-multiple-registers frame). -/

/-- One Modbus RTU request Application Data Unit, by content. -/
structure ModbusRequest where
  function_code : Nat
  slave_id : Nat
  starting_address : Nat
  quantity : Nat
  values : List Nat
deriving DecidableEq, Repr

/-- `rtu.read_holding_registers` (function code 0x03). -/
def read_holding_registers (slave_id starting_address quantity : Nat) : ModbusRequest :=
  ⟨3, slave_id, starting_address, quantity, []⟩

/-- `rtu.read_input_registers` (function code 0x04). -/
def read_input_registers_request (slave_id starting_address quantity : Nat) : ModbusRequest :=
  ⟨4, slave_id, starting_address, quantity, []⟩

/-- `rtu.write_multiple_registers` (function code 0x10). -/
def write_multiple_registers (slave_id starting_address : Nat) (values : List Nat) : ModbusRequest :=
  ⟨16, slave_id, starting_address, values.length, values⟩

/-- The single request `read_parameter(slave_id, address)` issues. -/
def read_parameter_request (slave_id address : Nat) : ModbusRequest :=
  read_holding_registers slave_id address 2

/-- The single request `read_info(slave_id, address)` issues. -/
def read_info_request (slave_id address : Nat) : ModbusRequest :=
  read_input_registers_request slave_id address 2

/-- The single request `read_time(slave_id)` issues. -/
def read_time_request (slave_id : Nat) : ModbusRequest :=
  read_holding_registers slave_id 0 8

/-- The single request `write_parameter(slave_id, address, value)` issues;
`value` is given by its binary32 bit pattern. -/
def write_parameter_request (slave_id address value : Nat) : ModbusRequest :=
  write_multiple_registers slave_id address
    [(encode_float32 value).1, (encode_float32 value).2]

/-- The single request `write_time(slave_id, value)` issues. -/
def write_time_request (slave_id : Nat) (t : DateTime) : ModbusRequest :=
  write_multiple_registers slave_id 0 (write_time_registers t)

/-- The request `pending_message_count()` issues through
`read_input_registers(gateway_device_id, 0, 1)`. -/
def pending_message_count_request (a : Addresses) : ModbusRequest :=
  read_input_registers_request a.gateway_device_id 0 1

/-- The request `message_registers()` issues through
`read_input_registers(gateway_device_id, 1, 4)`. -/
def message_registers_request (a : Addresses) : ModbusRequest :=
  read_input_registers_request a.gateway_device_id 1 4

/-! ## Exchange outcomes and operation results

Each client operation sends its request with `rtu.send_message` inside
`try: ... except (ValueError, KeyError): log except ModbusError: log
else: decode-and-return`.  The exchange outcome is the decoded reply (for
reads, the register list; for writes, the echoed quantity of written
registers) or one of the three caught exception classes.  On any caught
exception the Python function logs and falls off the end, implicitly
returning `None`; exceptions raised later (by `datetime`, or by
subscripting) escape to the caller.  `PyResult` keeps these three ways a
call can end apart. -/

/-- What `rtu.send_message` did for one request: a decoded reply of type
`α`, or one of the exception classes the client catches. -/
inductive ExchangeOutcome (α : Type) where
  | ok (response : α)
  | valueError
  | keyError
  | modbusError
deriving DecidableEq, Repr

/-- `true` exactly on a successful exchange. -/
def ExchangeOutcome.isOk : ExchangeOutcome α → Bool
  | .ok _ => true
  | _ => false

/-- Exceptions this client can let escape to its caller. -/
inductive PyExc where
  | typeError
  | indexError
  | valueError
deriving DecidableEq, Repr

/-- How a Python call ends: returning a value, implicitly returning `None`,
or raising. -/
inductive PyResult (α : Type) where
  | value (a : α)
  | noneResult
  | raised (e : PyExc)
deriving DecidableEq, Repr

/-- `read_parameter` as a function of the exchange outcome: decodes
`response[0]`, `response[1]` into a float (given by its bit pattern);
implicitly returns `None` on every caught exception. -/
def read_parameterM (ex : ExchangeOutcome (List Nat)) : PyResult Nat :=
  match ex with
  | .ok (r0 :: r1 :: _) => .value (decode_float32 r0 r1)
  | .ok _ => .raised .indexError
  | _ => .noneResult

/-- `read_info` as a function of the exchange outcome (same decode as
`read_parameter`, over an input-register request). -/
def read_infoM (ex : ExchangeOutcome (List Nat)) : PyResult Nat :=
  match ex with
  | .ok (r0 :: r1 :: _) => .value (decode_float32 r0 r1)
  | .ok _ => .raised .indexError
  | _ => .noneResult

/-- `read_time` as a function of the exchange outcome: on success builds
`datetime(response[7], ..., response[0]*1000)`; a `ValueError` from the
constructor (or an `IndexError` from a short reply) escapes; implicitly
returns `None` on every caught exception. -/
def read_timeM (ex : ExchangeOutcome (List Nat)) : PyResult DateTime :=
  match ex with
  | .ok rs =>
      if 8 ≤ rs.length then
        match read_time_decode rs with
        | some d => .value d
        | none => .raised .valueError
      else .raised .indexError
  | _ => .noneResult

/-- `write_parameter` as a function of the exchange outcome: returns the
echoed quantity of written registers; implicitly returns `None` on every
caught exception. -/
def write_parameterM (ex : ExchangeOutcome Nat) : PyResult Nat :=
  match ex with
  | .ok n => .value n
  | _ => .noneResult

/-- `write_time` as a function of the exchange outcome: returns the echoed
quantity of written registers; implicitly returns `None` on every caught
exception. -/
def write_timeM (ex : ExchangeOutcome Nat) : PyResult Nat :=
  match ex with
  | .ok n => .value n
  | _ => .noneResult

/-- `read_input_registers` as a function of the exchange outcome: returns
the raw register list; implicitly returns `None` on every caught
exception.  Its value as seen by a caller is `Option (List Nat)`:
`none` is Python's `None`. -/
def read_input_registersM (ex : ExchangeOutcome (List Nat)) : Option (List Nat) :=
  match ex with
  | .ok rs => some rs
  | _ => none

/-- Python subscripting `x[0]` where `x` is the result of
`read_input_registers`: `None[0]` raises `TypeError`, `[][0]` raises
`IndexError`. -/
def subscript0 (x : Option (List Nat)) : PyResult Nat :=
  match x with
  | none => .raised .typeError
  | some [] => .raised .indexError
  | some (r :: _) => .value r

/-- `pending_message_count`: `read_input_registers(gateway, 0, 1)[0]`. -/
def pending_message_countM (ex : ExchangeOutcome (List Nat)) : PyResult Nat :=
  subscript0 (read_input_registersM ex)

/-- `message_registers`: returns `read_input_registers(gateway, 1, 4)`
unchanged. -/
def message_registersM (ex : ExchangeOutcome (List Nat)) : Option (List Nat) :=
  read_input_registersM ex

/-! ## Theorems -/

/-- C1: encoding a binary32 value (given by its 32-bit pattern) into two
big-endian 16-bit registers as `write_parameter` does and decoding them
back as `read_parameter` does yields the value bit-for-bit, for every
pattern — subnormals, both zeros, every NaN payload and both infinities
included; and any pair of raw 16-bit words round-trips through
decode-then-encode unchanged. -/
theorem float32_codec_round_trip :
    (∀ v : Nat, v < 4294967296 →
      decode_float32 (encode_float32 v).1 (encode_float32 v).2 = v) ∧
    (∀ hi lo : Nat, hi < 65536 → lo < 65536 →
      encode_float32 (decode_float32 hi lo) = (hi, lo)) := by
  constructor
  · intro v hv
    simp only [encode_float32, decode_float32]
    omega
  · intro hi lo hhi hlo
    simp only [encode_float32, decode_float32, Prod.mk.injEq]
    omega

/-- Witness for C1: the pattern of -1.0f (0xBF800000 = 3212836864) splits
into registers (0xBF80, 0x0000) and round-trips; the word pair
(0xBF80, 0x0001) survives decode-then-encode. -/
theorem float32_codec_round_trip_witness :
    decode_float32 (encode_float32 3212836864).1 (encode_float32 3212836864).2 = 3212836864 ∧
    encode_float32 (decode_float32 49024 1) = (49024, 1) :=
  ⟨float32_codec_round_trip.1 3212836864 (by decide),
   float32_codec_round_trip.2 49024 1 (by decide) (by decide)⟩

/-- C2: for every valid timestamp with year in [2000, 2099], valid calendar
date, hour/minute/second in range and microsecond at most 999999,
encoding with `write_time`'s register list and decoding with `read_time`'s
`datetime` call reproduces every field, with the microsecond field
truncated down to a whole multiple of 1000 (whole milliseconds). -/
theorem time_round_trip (t : DateTime)
    (hy1 : 2000 ≤ t.year) (hy2 : t.year ≤ 2099)
    (hmo1 : 1 ≤ t.month) (hmo2 : t.month ≤ 12)
    (hd1 : 1 ≤ t.day) (hd2 : t.day ≤ daysInMonth t.year t.month)
    (hh : t.hour ≤ 23) (hmi : t.minute ≤ 59) (hs : t.second ≤ 59)
    (hus : t.microsecond ≤ 999999) :
    read_time_decode (write_time_registers t) =
      some ⟨t.year, t.month, t.day, t.hour, t.minute, t.second,
            t.microsecond / 1000 * 1000⟩ := by
  have husq : t.microsecond / 1000 * 1000 ≤ 999999 :=
    le_trans (Nat.div_mul_le_self _ _) hus
  simp only [write_time_registers, read_time_decode, List.getD_cons_succ,
    List.getD_cons_zero, datetimeMk]
  split
  · rfl
  · omega

/-- Witness for C2: 2022-03-01 12:34:56.789123 round-trips with the
microsecond field truncated to 789000. -/
theorem time_round_trip_witness :
    read_time_decode (write_time_registers ⟨2022, 3, 1, 12, 34, 56, 789123⟩) =
      some ⟨2022, 3, 1, 12, 34, 56, 789000⟩ :=
  time_round_trip ⟨2022, 3, 1, 12, 34, 56, 789123⟩ (by decide) (by decide)
    (by decide) (by decide) (by decide) (by decide) (by decide) (by decide)
    (by decide) (by decide)

/-- C3 (code bug): the decode step of `read_time` passes the year register
to `datetime` unchanged, so a two-digit year register 22 yields a datetime
with year 22, not 2022 — contrary to the claim (and to the function's own
docstring, `Year (format 2022 = 22)`). -/
theorem read_time_keeps_two_digit_year_raw :
    read_time_decode [0, 0, 0, 12, 1, 1, 3, 22] = some ⟨22, 3, 1, 12, 0, 0, 0⟩ ∧
    read_time_decode [0, 0, 0, 12, 1, 1, 3, 22] ≠ some ⟨2022, 3, 1, 12, 0, 0, 0⟩ := by
  decide

/-- C4 (code bug): `write_time` for 2022-03-01 12:00:00 sends the
eight registers [0, 0, 0, 12, weekday = 1 (Tuesday, Monday = 0), 1, 3,
2022] at address 0 with quantity 8 — the last register is the full year
2022, not year-2000 = 22 as the claim (and the function's own docstring)
require. -/
theorem write_time_sends_full_year :
    write_time_request 2 ⟨2022, 3, 1, 12, 0, 0, 0⟩ =
      ⟨16, 2, 0, 8, [0, 0, 0, 12, 1, 1, 3, 2022]⟩ ∧
    (write_time_request 2 ⟨2022, 3, 1, 12, 0, 0, 0⟩).values.getD 7 0 ≠ 2022 - 2000 := by
  decide

/-- Counterexample for C5: a transport failure (`ValueError`) and a Modbus
protocol-exception failure (`ModbusError`) lead every operation to the
same untagged outcome — the read/write operations implicitly return
`None` in both cases and `pending_message_count` raises the same
`TypeError` in both cases — so the outcome carries no detail telling the
two failure kinds apart, refuting the claim at these concrete inputs. -/
theorem failure_paths_indistinguishable :
    read_parameterM (ExchangeOutcome.valueError : ExchangeOutcome (List Nat)) =
      PyResult.noneResult ∧
    read_parameterM (ExchangeOutcome.valueError : ExchangeOutcome (List Nat)) =
      read_parameterM ExchangeOutcome.modbusError ∧
    read_infoM (ExchangeOutcome.valueError : ExchangeOutcome (List Nat)) =
      read_infoM ExchangeOutcome.modbusError ∧
    read_timeM (ExchangeOutcome.valueError : ExchangeOutcome (List Nat)) =
      read_timeM ExchangeOutcome.modbusError ∧
    write_parameterM (ExchangeOutcome.valueError : ExchangeOutcome Nat) =
      write_parameterM ExchangeOutcome.modbusError ∧
    write_timeM (ExchangeOutcome.valueError : ExchangeOutcome Nat) =
      write_timeM ExchangeOutcome.modbusError ∧
    message_registersM (ExchangeOutcome.valueError : ExchangeOutcome (List Nat)) =
      message_registersM ExchangeOutcome.modbusError ∧
    pending_message_countM (ExchangeOutcome.valueError : ExchangeOutcome (List Nat)) =
      pending_message_countM ExchangeOutcome.modbusError := by
  decide

/-- C5 (amended): every failed exchange — transport (`ValueError` or
`KeyError`) or Modbus protocol exception alike — makes `read_parameter`,
`read_info`, `read_time`, `write_parameter`, `write_time` and
`message_registers` implicitly return `None`, and makes
`pending_message_count` raise `TypeError`; the failure kinds are
collapsed, not distinguished. -/
theorem operations_collapse_failures (ex : ExchangeOutcome (List Nat))
    (exw : ExchangeOutcome Nat)
    (h : ex.isOk = false) (hw : exw.isOk = false) :
    read_parameterM ex = PyResult.noneResult ∧
    read_infoM ex = PyResult.noneResult ∧
    read_timeM ex = PyResult.noneResult ∧
    write_parameterM exw = PyResult.noneResult ∧
    write_timeM exw = PyResult.noneResult ∧
    message_registersM ex = none ∧
    pending_message_countM ex = PyResult.raised PyExc.typeError := by
  cases ex <;> cases exw <;>
    simp_all [read_parameterM, read_infoM, read_timeM, write_parameterM,
      write_timeM, message_registersM, pending_message_countM,
      read_input_registersM, subscript0, ExchangeOutcome.isOk]

/-- Witness for the amended C5, at a transport failure for the reads and a
Modbus failure for the writes. -/
theorem operations_collapse_failures_witness :
    read_parameterM (ExchangeOutcome.valueError : ExchangeOutcome (List Nat)) =
      PyResult.noneResult ∧
    read_infoM (ExchangeOutcome.valueError : ExchangeOutcome (List Nat)) =
      PyResult.noneResult ∧
    read_timeM (ExchangeOutcome.valueError : ExchangeOutcome (List Nat)) =
      PyResult.noneResult ∧
    write_parameterM (ExchangeOutcome.modbusError : ExchangeOutcome Nat) =
      PyResult.noneResult ∧
    write_timeM (ExchangeOutcome.modbusError : ExchangeOutcome Nat) =
      PyResult.noneResult ∧
    message_registersM (ExchangeOutcome.valueError : ExchangeOutcome (List Nat)) = none ∧
    pending_message_countM (ExchangeOutcome.valueError : ExchangeOutcome (List Nat)) =
      PyResult.raised PyExc.typeError :=
  operations_collapse_failures ExchangeOutcome.valueError ExchangeOutcome.modbusError rfl rfl

/-- C6: `Addresses` construction is a deterministic pure function of the
offset; every device id is the offset plus its fixed constant — gateway
`offset+1`, system `offset+2`, Xtender group `offset+10` with unicast ids
`offset+11..offset+19`, VarioTrack group `offset+20` with unicast ids up
to `offset+35`, VarioString group `offset+40` with unicast ids up to
`offset+55`, BSP group `offset+60` with unicast id `offset+61` — and the
window constants are 0/2000/4000 for reads and 0/6000 for writes; at
offset 0 this gives `xt_1_device_id = 11`, `vt_1_device_id = 21` and
`gateway_device_id = 1`. -/
theorem addresses_deterministic_and_fixed (offset : Nat) :
    mkAddresses offset = mkAddresses offset ∧
    (mkAddresses offset).dip_switches_offset = offset ∧
    (mkAddresses offset).gateway_device_id = offset + 1 ∧
    (mkAddresses offset).system_device_id = offset + 2 ∧
    (mkAddresses offset).xt_group_device_id = offset + 10 ∧
    (mkAddresses offset).xt_1_device_id = offset + 11 ∧
    (mkAddresses offset).xt_2_device_id = offset + 12 ∧
    (mkAddresses offset).xt_3_device_id = offset + 13 ∧
    (mkAddresses offset).xt_4_device_id = offset + 14 ∧
    (mkAddresses offset).xt_5_device_id = offset + 15 ∧
    (mkAddresses offset).xt_6_device_id = offset + 16 ∧
    (mkAddresses offset).xt_7_device_id = offset + 17 ∧
    (mkAddresses offset).xt_8_device_id = offset + 18 ∧
    (mkAddresses offset).xt_9_device_id = offset + 19 ∧
    (mkAddresses offset).vt_group_device_id = offset + 20 ∧
    (mkAddresses offset).vt_1_device_id = offset + 21 ∧
    (mkAddresses offset).vt_15_device_id = offset + 35 ∧
    (mkAddresses offset).vs_group_device_id = offset + 40 ∧
    (mkAddresses offset).vs_1_device_id = offset + 41 ∧
    (mkAddresses offset).vs_15_device_id = offset + 55 ∧
    (mkAddresses offset).bsp_group_device_id = offset + 60 ∧
    (mkAddresses offset).bsp_device_id = offset + 61 ∧
    (mkAddresses offset).read_param_flash_offset = 0 ∧
    (mkAddresses offset).read_param_min_offset = 2000 ∧
    (mkAddresses offset).read_param_max_offset = 4000 ∧
    (mkAddresses offset).write_param_flash_ram = 0 ∧
    (mkAddresses offset).write_param_ram_only = 6000 ∧
    (mkAddresses 0).xt_1_device_id = 11 ∧
    (mkAddresses 0).vt_1_device_id = 21 ∧
    (mkAddresses 0).gateway_device_id = 1 := by
  refine ⟨rfl, ?_⟩
  simp [mkAddresses]

/-- C7: `read_parameter` issues a single read-holding-registers request
(function code 0x03) with quantity 2 at exactly the address it is given;
hence base address 14 shifted by the `read_param_min_offset` window (2000)
produces a request at register address 2014, and by
`read_param_max_offset` (4000) at 4014, for every dip-switch offset. -/
theorem read_parameter_window_selection (slave_id address offset : Nat) :
    (read_parameter_request slave_id address).function_code = 3 ∧
    (read_parameter_request slave_id address).quantity = 2 ∧
    (read_parameter_request slave_id address).slave_id = slave_id ∧
    (read_parameter_request slave_id address).starting_address = address ∧
    (read_parameter_request slave_id
        (14 + (mkAddresses offset).read_param_min_offset)).starting_address = 2014 ∧
    (read_parameter_request slave_id
        (14 + (mkAddresses offset).read_param_max_offset)).starting_address = 4014 :=
  ⟨rfl, rfl, rfl, rfl, rfl, rfl⟩

/-- C8: when the exchange succeeds and the transport echoes the quantity of
registers the request wrote, `write_parameter` returns 2 (it always writes
the two registers of a float) and `write_time` returns 8 (it always writes
the eight time registers). -/
theorem write_echo_contract (slave_id address value : Nat) (t : DateTime)
    (exp exw : ExchangeOutcome Nat)
    (hp : exp = ExchangeOutcome.ok (write_parameter_request slave_id address value).values.length)
    (ht : exw = ExchangeOutcome.ok (write_time_request slave_id t).values.length) :
    write_parameterM exp = PyResult.value 2 ∧ write_timeM exw = PyResult.value 8 := by
  subst hp
  subst ht
  exact ⟨rfl, rfl⟩

/-- Witness for C8: a parameter write to register 14 of the first Xtender
and a time write, each echoed with its own register quantity. -/
theorem write_echo_contract_witness :
    write_parameterM (ExchangeOutcome.ok 2) = PyResult.value 2 ∧
    write_timeM (ExchangeOutcome.ok 8) = PyResult.value 8 :=
  write_echo_contract 11 14 0 ⟨2022, 3, 1, 12, 0, 0, 0⟩
    (ExchangeOutcome.ok 2) (ExchangeOutcome.ok 8) rfl rfl

/-- C9: on every failed exchange (a caught `ValueError`, `KeyError` or
Modbus error), `read_input_registers` implicitly returns `None`, and
`pending_message_count`, which subscripts that result with `[0]`, raises
`TypeError` to its caller instead of returning `None` like the other
operations. -/
theorem pending_message_count_failure_raises (ex : ExchangeOutcome (List Nat))
    (h : ex.isOk = false) :
    read_input_registersM ex = none ∧
    pending_message_countM ex = PyResult.raised PyExc.typeError := by
  cases ex <;>
    simp_all [read_input_registersM, pending_message_countM, subscript0,
      ExchangeOutcome.isOk]

/-- Witness for C9, at a caught `KeyError` from the transport. -/
theorem pending_message_count_failure_raises_witness :
    read_input_registersM (ExchangeOutcome.keyError : ExchangeOutcome (List Nat)) = none ∧
    pending_message_countM (ExchangeOutcome.keyError : ExchangeOutcome (List Nat)) =
      PyResult.raised PyExc.typeError :=
  pending_message_count_failure_raises ExchangeOutcome.keyError rfl

/-- C10: `read_time` never reads reply register 4 (the weekday field): two
eight-register replies that agree everywhere except register 4 produce the
same `read_time` outcome — the resulting value is built solely from the
millisecond, second, minute, hour, day, month and year registers. -/
theorem read_time_ignores_weekday_register (rs rt : List Nat)
    (h8 : rs.length = 8) (h8t : rt.length = 8)
    (hagree : ∀ i, i < 8 → i ≠ 4 → rs.getD i 0 = rt.getD i 0) :
    read_timeM (ExchangeOutcome.ok rs) = read_timeM (ExchangeOutcome.ok rt) ∧
    read_time_decode rs = read_time_decode rt := by
  have hd : read_time_decode rs = read_time_decode rt := by
    simp only [read_time_decode]
    rw [hagree 7 (by omega) (by omega), hagree 6 (by omega) (by omega),
      hagree 5 (by omega) (by omega), hagree 3 (by omega) (by omega),
      hagree 2 (by omega) (by omega), hagree 1 (by omega) (by omega),
      hagree 0 (by omega) (by omega)]
  refine ⟨?_, hd⟩
  simp [read_timeM, h8, h8t, hd]

/-- Witness for C10: two replies differing only in the weekday register
(99 versus 0) decode to the same datetime. -/
theorem read_time_ignores_weekday_register_witness :
    read_timeM (ExchangeOutcome.ok [500, 56, 34, 12, 99, 1, 3, 2022]) =
      read_timeM (ExchangeOutcome.ok [500, 56, 34, 12, 0, 1, 3, 2022]) ∧
    read_time_decode [500, 56, 34, 12, 99, 1, 3, 2022] =
      read_time_decode [500, 56, 34, 12, 0, 1, 3, 2022] :=
  read_time_ignores_weekday_register
    [500, 56, 34, 12, 99, 1, 3, 2022] [500, 56, 34, 12, 0, 1, 3, 2022]
    (by decide) (by decide) (by decide)

end Xcom485i
